import Mathlib

/-!
Shallow embedding of `src/programmaticStretch.js` (ResponsiveAds/programmatic-stretch).

The script installs a single `message` listener. For each event it decodes the
payload (object or JSON string), checks the two sentinel fields, consults the
global configuration, locates the ad iframe via four ordered strategies,
resolves a height via a fixed priority chain, and either invokes a publisher
callback or applies the default CSS/attribute resize.

Modelling conventions:
* JS field values that the code tests with `typeof x === 'number'` or strict
  string equality are modelled as `Option Int` / `Option String`: `none`
  covers both an absent field and a field of the wrong type (both behave
  identically at every use site in the source).
* The DOM is a `Document`: a list of iframes (document order, as returned by
  `querySelectorAll('iframe')`) plus a list of elements addressable by id.
  Each iframe carries its ancestor chain (up to, excluding, `document.body`),
  its raw `style` attribute text (used by the `:not([style*="display: none"])`
  selector), its inline `style.width` / `style.height`, its `width` / `height`
  element attributes, and the `height` of its computed style.
* A `contentWindow` probe that throws a cross-origin security exception is
  modelled as `WindowProbe.securityErr`; the source's `try/catch` skips it.
* `JSON.parse` is a platform primitive, not repository code: `onMessage` is
  parameterised over a `parse` function so theorems hold for every parser
  behaviour.  A successful parse yields a `ParsedVal` (an object, `null`, or
  some other primitive), mirroring what `JSON.parse` can return.
* Publisher resize callbacks are opaque to the handler; the model records
  their invocation (which callback, and the exact arguments the source passes)
  in `Outcome.calls`, and a callback's only modelled behaviour is whether it
  throws (`Callback.throwsMsg`).  The handler's own DOM effect is
  `Outcome.resized`: `some f` exactly when `defaultResize` ran, producing the
  updated iframe (with its updated parent); `none` means the handler mutated
  nothing.  `Outcome.logs` records every `logInfo`/`logWarn`/`logError` call
  in order.  The embedded handler is a total function: nothing escapes it,
  matching the source where every throwing operation is wrapped in
  `try/catch`.
-/

-- Constants (programmaticStretch.js lines 17-18)

def MESSAGE_CREATIVE : String := "Prebid Creative"

def ACTION_PROGRAMMATIC_STRETCH : String := "programmaticStretch"

-- DOM model

/-- Value of an iframe `width`/`height` element attribute: the source assigns
either the string `'100%'` or a number. -/
inductive AttrVal where
  | str (s : String)
  | num (n : Int)
deriving DecidableEq, Repr

/-- One ancestor element on an iframe's parent chain (immediate parent first,
stopping before `document.body`). -/
structure AncestorElem where
  id : String
  styleWidth : String
  styleHeight : String
deriving DecidableEq, Repr

/-- Result of probing an iframe's `contentWindow`: the window it yields, or a
cross-origin security exception. -/
inductive WindowProbe where
  | ok (w : Nat)
  | securityErr
deriving DecidableEq, Repr

/-- An iframe element.  `contentWindow` is `WindowProbe.securityErr` when
probing it throws a cross-origin security exception.  `computedHeight` is
`getComputedStyle(iframe).height` (`none` when `getComputedStyle` returns a
falsy value). -/
structure Iframe where
  ref : Nat
  contentWindow : WindowProbe
  styleAttr : String
  styleWidth : String
  styleHeight : String
  widthAttr : Option AttrVal
  heightAttr : Option AttrVal
  computedHeight : Option String
  ancestors : List AncestorElem
deriving DecidableEq, Repr

/-- An element addressable by `document.getElementById`; `children` lists the
`ref`s of its descendant iframes in document order. -/
structure Elem where
  id : String
  children : List Nat
deriving DecidableEq, Repr

structure Document where
  iframes : List Iframe
  elems : List Elem
deriving DecidableEq, Repr

-- Ad-server globals

/-- A GPT slot: targeting key/value pairs and the slot's element id. -/
structure GptSlot where
  targeting : List (String × List String)
  slotElementId : String
deriving DecidableEq, Repr

/-- `window.googletag` with a callable `pubads()`; `none` models an absent or
unusable GPT API. -/
structure Gpt where
  slots : List GptSlot
deriving DecidableEq, Repr

/-- `window.apntag` with a callable `getTag`; `tags` maps adUnitCode to the
tag's `targetId`. -/
structure Apn where
  tags : List (String × String)
deriving DecidableEq, Repr

-- Configuration

/-- A publisher resize callback.  `throwsMsg = some m` models a callback that
throws an `Error` whose `message` is `m`; `none` a callback that returns. -/
structure Callback where
  throwsMsg : Option String
deriving DecidableEq, Repr

structure SlotCfg where
  height : Option Int
  resizeFunction : Option Callback
deriving DecidableEq, Repr

structure Config where
  enabled : Option Bool
  resizeFunction : Option Callback
  slots : Option (List (String × SlotCfg))
deriving DecidableEq, Repr

-- Messages and events

/-- The fields of a parsed payload object that the source reads.  `none` in
`message`/`action`/`adId`/`adUnitCode` covers an absent field or one that is
not a string; `none` in `height` covers an absent field or one that is not a
number (the source tests `typeof data.height === 'number'`). -/
structure MsgObj where
  message : Option String
  action : Option String
  adId : Option String
  adUnitCode : Option String
  height : Option Int
deriving DecidableEq, Repr

/-- A JS value as it can appear in `event.data` / `event.message`. -/
inductive JSVal where
  | vNull
  | vUndef
  | vStr (s : String)
  | vNum (n : Int)
  | vBool (b : Bool)
  | vObj (o : MsgObj)
deriving DecidableEq, Repr

/-- A `message` event: `data`, the legacy `message` field, and the source
window (identified by the window id that iframes' `contentWindow` yields). -/
structure Event where
  data : JSVal
  message : JSVal
  source : Nat
deriving DecidableEq, Repr

/-- What `JSON.parse` can produce: an object, `null` (`typeof` is still
`'object'`), or some other primitive with the given truthiness. -/
inductive ParsedVal where
  | pObj (o : MsgObj)
  | pNull
  | pPrim (truthy : Bool)
deriving DecidableEq, Repr

-- Handler outcome

inductive LogLevel where
  | info
  | warn
  | error
deriving DecidableEq, Repr

/-- Which configured callback the handler invoked. -/
inductive CallTarget where
  | slotLevel
  | globalLevel
deriving DecidableEq, Repr

/-- One callback invocation, with the exact arguments the source passes:
`resizeFunction(adId, height, { iframe: iframe, event: ev })`. -/
structure Call where
  target : CallTarget
  adId : Option String
  height : Option Int
  iframe : Iframe
  event : Event
deriving DecidableEq, Repr

structure Outcome where
  logs : List (LogLevel × String)
  calls : List Call
  resized : Option Iframe
deriving DecidableEq, Repr

/-- The handler returning without logging, calling or mutating anything. -/
def silentOutcome : Outcome := ⟨[], [], none⟩

-- String helpers (platform primitives used by the source)

/-- Whether `p` is an initial segment of `l`. -/
def leadsWith : List Char → List Char → Bool
  | [], _ => true
  | _ :: _, [] => false
  | p :: ps, c :: cs => p == c && leadsWith ps cs

/-- Whether `needle` occurs contiguously inside `hay`. -/
def containsSeq : List Char → List Char → Bool
  | [], needle => needle.isEmpty
  | c :: cs, needle => leadsWith needle (c :: cs) || containsSeq cs needle

/-- Whether a style attribute text matches `[style*="display: none"]`:
substring containment. -/
def styleHasDisplayNone (s : String) : Bool :=
  containsSeq s.toList ("display: none".toList)

/-- Leading decimal digits of a character list, or `none` when there are
none (`parseInt` yields `NaN`). -/
def leadingDigits (cs : List Char) : Option Nat :=
  let ds := cs.takeWhile Char.isDigit
  if ds.isEmpty then none
  else some (ds.foldl (fun acc c => acc * 10 + (c.toNat - 48)) 0)

/-- JS `parseInt(s, 10)`: skip leading whitespace, optional sign, leading
digits; `none` models `NaN`. -/
def jsParseInt (s : String) : Option Int :=
  let cs := s.toList.dropWhile (fun c => c = ' ' ∨ c = '\t' ∨ c = '\n' ∨ c = '\r')
  match cs with
  | '-' :: rest => (leadingDigits rest).map (fun n => -(n : Int))
  | '+' :: rest => (leadingDigits rest).map (fun n => (n : Int))
  | _ => (leadingDigits cs).map (fun n => (n : Int))

/-- JS `x || null` for a string-valued field: the empty string is falsy. -/
def jsStrOrNull (x : Option String) : Option String :=
  match x with
  | some s => if s = "" then none else some s
  | none => none

/-- String concatenation with a possibly-null value: JS renders `null` as
`"null"`. -/
def strOrNullText (x : Option String) : String :=
  match x with
  | some s => s
  | none => "null"

/-- JS `height || '100%'` rendered into a string (a number concatenates as its
decimal text; `null` and `0` are falsy). -/
def numOrFullText (x : Option Int) : String :=
  match x with
  | some h => if h = 0 then "100%" else toString h
  | none => "100%"

-- Configuration helpers (lines 28-39)

/-- `window.programmaticStretch || {}` (line 29). -/
def getConfig (cfg? : Option Config) : Config :=
  match cfg? with
  | some c => c
  | none => ⟨none, none, none⟩

/-- `(cfg.slots && adUnitCode && cfg.slots[adUnitCode]) || null` (line 38). -/
def getSlotConfig (cfg? : Option Config) (adUnitCode : Option String) : Option SlotCfg :=
  match (getConfig cfg?).slots, adUnitCode with
  | some slots, some code =>
      if code = "" then none
      else ((slots.find? (fun p => p.1 = code)).map (fun p => p.2))
  | _, _ => none

-- Element lookup (lines 49-150)

/-- `document.getElementById(i)`. -/
def getElementById (doc : Document) (i : String) : Option Elem :=
  doc.elems.find? (fun e => e.id = i)

/-- `el.querySelector('iframe:not([style*="display: none"])')`: the first
descendant iframe whose style attribute lacks the substring. -/
def elemFirstVisibleIframe (doc : Document) (el : Elem) : Option Iframe :=
  (el.children.filterMap (fun r => doc.iframes.find? (fun f => f.ref = r))).find?
    (fun f => !(styleHasDisplayNone f.styleAttr))

/-- `findIframeBySource` (lines 49-61): scan every iframe, comparing
`contentWindow` to `ev.source`; a throwing cross-origin probe is skipped. -/
def findIframeBySource (doc : Document) (ev : Event) : Option Iframe :=
  doc.iframes.find? (fun f =>
    match f.contentWindow with
    | WindowProbe.ok w => w = ev.source
    | WindowProbe.securityErr => false)

/-- One GPT slot's key loop (lines 73-82): the first targeting key whose
values contain `adId` and whose slot element exists yields that element. -/
def gptSlotMatchElem (doc : Document) (a : String) (s : GptSlot) : Option Elem :=
  (s.targeting.find? (fun kv =>
    kv.2.contains a && (getElementById doc s.slotElementId).isSome)).bind
    (fun _ => getElementById doc s.slotElementId)

/-- The GPT slot loop (lines 71-83): on the first slot whose targeting matches
and whose element exists, return that element's first visible iframe — even
when that is `null` the loop returns (the source's early `return`). -/
def gptSlotsLoop (doc : Document) (a : String) : List GptSlot → Option Iframe
  | [] => none
  | s :: rest =>
      match gptSlotMatchElem doc a s with
      | some el => elemFirstVisibleIframe doc el
      | none => gptSlotsLoop doc a rest

/-- `findIframeByGptAdId` (lines 67-89). -/
def findIframeByGptAdId (doc : Document) (gpt? : Option Gpt) (adId : Option String) :
    Option Iframe :=
  match adId with
  | none => none
  | some a =>
      if a = "" then none
      else
        match gpt? with
        | none => none
        | some g => gptSlotsLoop doc a g.slots

/-- `findIframeByApnTag` (lines 94-110). -/
def findIframeByApnTag (doc : Document) (apn? : Option Apn) (adUnitCode : Option String) :
    Option Iframe :=
  match adUnitCode with
  | none => none
  | some c =>
      if c = "" then none
      else
        match apn? with
        | none => none
        | some ap =>
            match ap.tags.find? (fun t => t.1 = c) with
            | some t =>
                if t.2 = "" then none
                else
                  match getElementById doc t.2 with
                  | some el => elemFirstVisibleIframe doc el
                  | none => none
            | none => none

/-- The last-resort branch of `findAdIframe` (lines 125-134): treat
`adUnitCode` as a DOM id. -/
def directIdLookup (doc : Document) (adUnitCode : Option String) : Option Iframe :=
  match adUnitCode with
  | some c =>
      if c = "" then none
      else
        match getElementById doc c with
        | some el => elemFirstVisibleIframe doc el
        | none => none
  | none => none

/-- `findAdIframe` (lines 121-135): the four strategies chained with `||`. -/
def findAdIframe (doc : Document) (gpt? : Option Gpt) (apn? : Option Apn) (ev : Event)
    (adId adUnitCode : Option String) : Option Iframe :=
  (findIframeBySource doc ev).orElse (fun _ =>
    (findIframeByGptAdId doc gpt? adId).orElse (fun _ =>
      (findIframeByApnTag doc apn? adUnitCode).orElse (fun _ =>
        directIdLookup doc adUnitCode)))

/-- `guessAdUnitCode` (lines 142-150): walk up the parent chain until an
ancestor with a non-empty id, stopping at `document.body`. -/
def guessAdUnitCode (f? : Option Iframe) : Option String :=
  match f? with
  | none => none
  | some f => (f.ancestors.find? (fun a => a.id ≠ "")).map (fun a => a.id)

-- Resize logic (lines 161-217)

/-- `getDimension` (lines 161-163): `value ? value + 'px' : '100%'`. -/
def getDimension (value : Option Int) : String :=
  match value with
  | some v => if v = 0 then "100%" else toString v ++ "px"
  | none => "100%"

/-- Step 3 of `resolveHeight` (lines 181-187): the iframe's computed height
via `parseInt`, accepted only when strictly positive. -/
def resolveHeightFromIframe (iframe : Option Iframe) : Option Int :=
  match iframe with
  | some f =>
      match f.computedHeight with
      | some cs =>
          match jsParseInt cs with
          | some h => if h > 0 then some h else none
          | none => none
      | none => none
  | none => none

/-- Steps 2-3 of `resolveHeight` (lines 177-188): the message payload's
`height`, then the iframe's computed height. -/
def resolveHeightFromMsg (data : MsgObj) (iframe : Option Iframe) : Option Int :=
  match data.height with
  | some h => if h > 0 then some h else resolveHeightFromIframe iframe
  | none => resolveHeightFromIframe iframe

/-- `resolveHeight` (lines 171-189): slot config, then message payload, then
the iframe's computed height via `parseInt`. -/
def resolveHeight (slotCfg : Option SlotCfg) (data : MsgObj) (iframe : Option Iframe) :
    Option Int :=
  match slotCfg with
  | some sc =>
      match sc.height with
      | some h => if h > 0 then some h else resolveHeightFromMsg data iframe
      | none => resolveHeightFromMsg data iframe
  | none => resolveHeightFromMsg data iframe

/-- `defaultResize` (lines 195-217): inline CSS on the iframe and its
immediate parent, then the iframe's `width`/`height` attributes. -/
def defaultResize (iframe : Iframe) (width height : Option Int) : Iframe :=
  let widthCSS := getDimension width
  let heightCSS := getDimension height
  let f1 : Iframe :=
    { iframe with
      styleWidth := widthCSS
      styleHeight := heightCSS
      ancestors :=
        match iframe.ancestors with
        | [] => []
        | p :: rest => { p with styleWidth := widthCSS, styleHeight := heightCSS } :: rest }
  let f2 : Iframe :=
    match width with
    | some w => if w = 0 then { f1 with widthAttr := some (AttrVal.str "100%") }
                else { f1 with widthAttr := some (AttrVal.num w) }
    | none => { f1 with widthAttr := some (AttrVal.str "100%") }
  match height with
  | some h => if h = 0 then f2 else { f2 with heightAttr := some (AttrVal.num h) }
  | none => f2

-- postMessage handler (lines 223-298)

/-- `ev.data != null ? ev.data : ev.message` (line 226): JS loose `!= null`
is true exactly for `null` and `undefined`. -/
def effectivePayload (ev : Event) : JSVal :=
  match ev.data with
  | JSVal.vNull => ev.message
  | JSVal.vUndef => ev.message
  | d => d

/-- The parse stage (lines 225-233): a string payload goes through
`JSON.parse` (failure discards the event), an object payload is used as-is
(`typeof null === 'object'`), anything else discards the event. -/
def decodePayload (parse : String → Option ParsedVal) (ev : Event) : Option ParsedVal :=
  match effectivePayload ev with
  | JSVal.vStr s => parse s
  | JSVal.vObj o => some (ParsedVal.pObj o)
  | JSVal.vNull => some ParsedVal.pNull
  | _ => none

/-- `adUnitCode` after the fallback at lines 260-262: the message's value, or
the id guessed from the iframe's ancestors. -/
def resolvedAdUnitCode (o : MsgObj) (f : Iframe) : Option String :=
  match jsStrOrNull o.adUnitCode with
  | none => guessAdUnitCode (some f)
  | some c => some c

/-- The body of `onMessage` after the sentinel checks pass (lines 242-298). -/
def handleStretch (cfg? : Option Config) (doc : Document) (gpt? : Option Gpt)
    (apn? : Option Apn) (ev : Event) (o : MsgObj) : Outcome :=
  let adId := jsStrOrNull o.adId
  let adUnitCode0 := jsStrOrNull o.adUnitCode
  let cfg := getConfig cfg?
  if cfg.enabled = some false then
    { logs := [(LogLevel.warn,
        "Received programmaticStretch message but script is globally disabled.")],
      calls := [], resized := none }
  else
    match findAdIframe doc gpt? apn? ev adId adUnitCode0 with
    | none =>
        { logs := [(LogLevel.warn,
            "Received programmaticStretch message but could not locate the ad iframe (adId: "
              ++ strOrNullText adId ++ ").")],
          calls := [], resized := none }
    | some iframe =>
        let adUnitCode := resolvedAdUnitCode o iframe
        let slotCfg := getSlotConfig cfg? adUnitCode
        let height := resolveHeight slotCfg o (some iframe)
        let width : Option Int := none
        let runCallback := fun (tgt : CallTarget) (cb : Callback) =>
          ({ logs :=
              (match cb.throwsMsg with
               | some m => [(LogLevel.error, "Custom resizeFunction threw: " ++ m)]
               | none => [])
             calls := [⟨tgt, adId, height, iframe, ev⟩]
             resized := none } : Outcome)
        let globalOrDefault : Outcome :=
          match cfg.resizeFunction with
          | some cb => runCallback CallTarget.globalLevel cb
          | none =>
              let f := defaultResize iframe width height
              { logs := [(LogLevel.info,
                  "programmaticStretch applied — adId: " ++ strOrNullText adId
                    ++ ", width: 100%, height: " ++ numOrFullText height)],
                calls := [], resized := some f }
        match slotCfg with
        | some sc =>
            match sc.resizeFunction with
            | some cb => runCallback CallTarget.slotLevel cb
            | none => globalOrDefault
        | none => globalOrDefault

/-- `onMessage` (lines 223-298), parameterised over the platform JSON parser. -/
def onMessage (parse : String → Option ParsedVal) (cfg? : Option Config) (doc : Document)
    (gpt? : Option Gpt) (apn? : Option Apn) (ev : Event) : Outcome :=
  match decodePayload parse ev with
  | none => silentOutcome
  | some pv =>
      match pv with
      | ParsedVal.pNull => silentOutcome
      | ParsedVal.pPrim _ => silentOutcome
      | ParsedVal.pObj o =>
          if o.message = some MESSAGE_CREATIVE then
            if o.action = some ACTION_PROGRAMMATIC_STRETCH then
              handleStretch cfg? doc gpt? apn? ev o
            else silentOutcome
          else silentOutcome

-- Theorems

section HeightResolver

/-- The slot-config step of the priority chain does not produce a height:
the field is absent (or not a number), or not strictly positive. -/
def slotHeightFails (sc? : Option SlotCfg) : Prop :=
  ∀ sc hs, sc? = some sc → sc.height = some hs → hs ≤ 0

/-- The message-payload step does not produce a height. -/
def msgHeightFails (data : MsgObj) : Prop :=
  ∀ hm, data.height = some hm → hm ≤ 0

/-- The computed-height step does not produce a height. -/
def computedHeightFails (f? : Option Iframe) : Prop :=
  ∀ f cs hc, f? = some f → f.computedHeight = some cs → jsParseInt cs = some hc → hc ≤ 0

lemma resolveHeight_slot_skip (sc? : Option SlotCfg) (data : MsgObj) (f? : Option Iframe)
    (hfail : slotHeightFails sc?) :
    resolveHeight sc? data f? = resolveHeightFromMsg data f? := by
  cases sc? with
  | none => rfl
  | some sc =>
      cases hh : sc.height with
      | none => simp [resolveHeight, hh]
      | some hs =>
          have hle := hfail sc hs rfl hh
          simp only [resolveHeight, hh]
          rw [if_neg (by omega)]

lemma resolveHeightFromMsg_skip (data : MsgObj) (f? : Option Iframe)
    (hfail : msgHeightFails data) :
    resolveHeightFromMsg data f? = resolveHeightFromIframe f? := by
  cases hh : data.height with
  | none => simp [resolveHeightFromMsg, hh]
  | some hm =>
      have hle := hfail hm hh
      simp only [resolveHeightFromMsg, hh]
      rw [if_neg (by omega)]

lemma resolveHeightFromIframe_skip (f? : Option Iframe)
    (hfail : computedHeightFails f?) :
    resolveHeightFromIframe f? = none := by
  cases f? with
  | none => rfl
  | some f =>
      cases hc : f.computedHeight with
      | none => simp [resolveHeightFromIframe, hc]
      | some cs =>
          cases hp : jsParseInt cs with
          | none => simp [resolveHeightFromIframe, hc, hp]
          | some hv =>
              have hle := hfail f cs hv rfl hc hp
              simp only [resolveHeightFromIframe, hc, hp]
              rw [if_neg (by omega)]

/-- C1: the resolved height follows the fixed priority chain: a strictly
positive slot-config height wins; otherwise a strictly positive message
height wins; otherwise the iframe's computed height parsed as an integer
wins when strictly positive; otherwise no height is returned. -/
theorem resolveHeight_priority :
    (∀ (sc : SlotCfg) (data : MsgObj) (f? : Option Iframe) (h : Int),
        sc.height = some h → 0 < h →
        resolveHeight (some sc) data f? = some h) ∧
    (∀ (sc? : Option SlotCfg) (data : MsgObj) (f? : Option Iframe) (h : Int),
        slotHeightFails sc? → data.height = some h → 0 < h →
        resolveHeight sc? data f? = some h) ∧
    (∀ (sc? : Option SlotCfg) (data : MsgObj) (f : Iframe) (cs : String) (h : Int),
        slotHeightFails sc? → msgHeightFails data →
        f.computedHeight = some cs → jsParseInt cs = some h → 0 < h →
        resolveHeight sc? data (some f) = some h) ∧
    (∀ (sc? : Option SlotCfg) (data : MsgObj) (f? : Option Iframe),
        slotHeightFails sc? → msgHeightFails data → computedHeightFails f? →
        resolveHeight sc? data f? = none) := by
  refine ⟨?_, ?_, ?_, ?_⟩
  · intro sc data f? h hh hpos
    simp only [resolveHeight, hh]
    rw [if_pos hpos]
  · intro sc? data f? h hslot hh hpos
    rw [resolveHeight_slot_skip sc? data f? hslot]
    simp only [resolveHeightFromMsg, hh]
    rw [if_pos hpos]
  · intro sc? data f cs h hslot hmsg hc hp hpos
    rw [resolveHeight_slot_skip _ _ _ hslot, resolveHeightFromMsg_skip _ _ hmsg]
    simp only [resolveHeightFromIframe, hc, hp]
    rw [if_pos hpos]
  · intro sc? data f? hslot hmsg hcomp
    rw [resolveHeight_slot_skip _ _ _ hslot, resolveHeightFromMsg_skip _ _ hmsg,
      resolveHeightFromIframe_skip _ hcomp]

/-- Message fixture used by the concrete witnesses: a well-formed
programmaticStretch payload with height 250. -/
def msg1 : MsgObj :=
  ⟨some "Prebid Creative", some "programmaticStretch", some "ad-1", some "slot-1", some 250⟩

/-- The same payload without a height field. -/
def msg1NoHeight : MsgObj :=
  ⟨some "Prebid Creative", some "programmaticStretch", some "ad-1", some "slot-1", none⟩

/-- Iframe fixture: lives in container `slot-1`, computed height `90px`. -/
def iframe1 : Iframe :=
  ⟨1, WindowProbe.ok 7, "", "", "", none, none, some "90px", [⟨"slot-1", "", ""⟩]⟩

/-- The same iframe with no computed style. -/
def iframe1NoComputed : Iframe :=
  ⟨1, WindowProbe.ok 7, "", "", "", none, none, none, [⟨"slot-1", "", ""⟩]⟩

/-- Witness for C1: with slot height 300, message height 250 and computed
height 90px the slot value wins; without slot config the message value wins;
with no source at all the full fallback (`none`) is returned. -/
theorem resolveHeight_priority_witness :
    resolveHeight (some ⟨some 300, none⟩) msg1 (some iframe1) = some 300 ∧
    resolveHeight none msg1 (some iframe1) = some 250 ∧
    resolveHeight none msg1NoHeight (some iframe1NoComputed) = none := by
  refine ⟨?_, ?_, ?_⟩
  · exact resolveHeight_priority.1 ⟨some 300, none⟩ msg1 (some iframe1) 300 rfl (by norm_num)
  · exact resolveHeight_priority.2.1 none msg1 (some iframe1) 250
      (fun sc hs hcon _ => nomatch hcon) rfl (by norm_num)
  · exact resolveHeight_priority.2.2.2 none msg1NoHeight (some iframe1NoComputed)
      (fun sc hs hcon _ => nomatch hcon)
      (fun hm hcon => nomatch hcon)
      (fun f cs hc hf hcomp _ => by
        cases hf
        exact nomatch hcomp)

/-- C7: `resolveHeight` is a pure function of its three inputs: two
invocations with equal slot configuration, message payload and iframe inputs
return equal heights, independent of any other state. -/
theorem resolveHeight_deterministic :
    ∀ (s₁ s₂ : Option SlotCfg) (d₁ d₂ : MsgObj) (f₁ f₂ : Option Iframe),
      s₁ = s₂ → d₁ = d₂ → f₁ = f₂ →
      resolveHeight s₁ d₁ f₁ = resolveHeight s₂ d₂ f₂ := by
  intro s₁ s₂ d₁ d₂ f₁ f₂ hs hd hf
  rw [hs, hd, hf]

/-- Witness for C7 at a concrete input. -/
theorem resolveHeight_deterministic_witness :
    resolveHeight (some ⟨some 300, none⟩) msg1 (some iframe1) =
      resolveHeight (some ⟨some 300, none⟩) msg1 (some iframe1) :=
  resolveHeight_deterministic _ _ _ _ _ _ rfl rfl rfl

/-- C9: `getDimension` maps a missing or zero value to `"100%"` and any
positive number `n` to `"<n>px"`. -/
theorem getDimension_spec :
    getDimension (some 0) = "100%" ∧ getDimension none = "100%" ∧
    getDimension (some 250) = "250px" ∧
    ∀ n : Int, 0 < n → getDimension (some n) = toString n ++ "px" := by
  refine ⟨rfl, rfl, rfl, ?_⟩
  intro n hn
  simp only [getDimension]
  rw [if_neg (by omega)]

/-- Witness for C9 at the concrete input 3. -/
theorem getDimension_spec_witness :
    (0 : Int) < 3 ∧ getDimension (some 3) = toString (3 : Int) ++ "px" :=
  ⟨by norm_num, getDimension_spec.2.2.2 3 (by norm_num)⟩

end HeightResolver

section ResizeApplier

/-- C8: on the default resize path, `defaultResize` sets both width and
height as inline CSS on the iframe and on its immediate parent element, sets
the iframe's width attribute to the literal `"100%"` when no explicit width
is given (otherwise the numeric pixel value), and sets the height attribute
only when a resolved height exists — a missing height leaves it untouched. -/
theorem defaultResize_spec :
    ∀ (f : Iframe) (width height : Option Int),
      (defaultResize f width height).styleWidth = getDimension width ∧
      (defaultResize f width height).styleHeight = getDimension height ∧
      (∀ p rest, f.ancestors = p :: rest →
        (defaultResize f width height).ancestors =
          ({ p with styleWidth := getDimension width,
                    styleHeight := getDimension height } : AncestorElem) :: rest) ∧
      (width = none → (defaultResize f width height).widthAttr = some (AttrVal.str "100%")) ∧
      (∀ w, width = some w → w ≠ 0 →
        (defaultResize f width height).widthAttr = some (AttrVal.num w)) ∧
      (∀ h, height = some h → h ≠ 0 →
        (defaultResize f width height).heightAttr = some (AttrVal.num h)) ∧
      (height = none → (defaultResize f width height).heightAttr = f.heightAttr) := by
  intro f width height
  rcases f with ⟨fr, fcw, fsa, fsw, fsh, fwa, fha, fch, fanc⟩
  refine ⟨?_, ?_, ?_, ?_, ?_, ?_, ?_⟩
  · cases width <;> cases height <;> cases fanc <;>
      simp [defaultResize] <;> split <;> simp_all <;> split <;> simp_all
  · cases width <;> cases height <;> cases fanc <;>
      simp [defaultResize] <;> split <;> simp_all <;> split <;> simp_all
  · intro p rest hanc
    cases width <;> cases height <;>
      simp_all [defaultResize] <;> split <;> simp_all <;> split <;> simp_all
  · intro hw
    subst hw
    cases height <;> cases fanc <;> simp [defaultResize] <;> split <;> simp_all
  · intro w hw hne
    subst hw
    cases height <;> cases fanc <;>
      simp_all [defaultResize] <;> split <;> simp_all
  · intro h hh hne
    subst hh
    cases width <;> cases fanc <;>
      simp_all [defaultResize]
  · intro hh
    subst hh
    cases width <;> cases fanc <;> simp [defaultResize] <;> split <;> simp_all

/-- Witness for C8: resizing `iframe1` with no width and height 250. -/
theorem defaultResize_spec_witness :
    (defaultResize iframe1 none (some 250)).styleWidth = getDimension none ∧
    (defaultResize iframe1 none (some 250)).styleHeight = getDimension (some 250) ∧
    (defaultResize iframe1 none (some 250)).ancestors =
      ({ id := "slot-1", styleWidth := getDimension none,
         styleHeight := getDimension (some 250) } : AncestorElem) :: [] ∧
    (defaultResize iframe1 none (some 250)).widthAttr = some (AttrVal.str "100%") ∧
    (defaultResize iframe1 none (some 250)).heightAttr = some (AttrVal.num 250) := by
  have h := defaultResize_spec iframe1 none (some 250)
  exact ⟨h.1, h.2.1, h.2.2.1 ⟨"slot-1", "", ""⟩ [] rfl, h.2.2.2.1 rfl,
    h.2.2.2.2.2.1 250 rfl (by norm_num)⟩

end ResizeApplier

section IframeResolver

/-- C3: `findAdIframe` tries source-window match, GPT targeting lookup by
adId, AppNexus tag lookup by adUnitCode, then direct `getElementById` on
adUnitCode, in that fixed order, short-circuiting on the first strategy that
yields an iframe; a strategy that finds nothing (or whose global API is
absent, modelled by `none`) falls through.  In particular, when GPT targeting
contains the adId and the slot's element holds a visible iframe, resolution
succeeds via the GPT strategy even though source-window matching and direct
id lookup both fail. -/
theorem findAdIframe_spec :
    ∀ (doc : Document) (gpt? : Option Gpt) (apn? : Option Apn) (ev : Event)
      (adId adUnitCode : Option String),
      (∀ f, findIframeBySource doc ev = some f →
        findAdIframe doc gpt? apn? ev adId adUnitCode = some f) ∧
      (∀ f, findIframeBySource doc ev = none →
        findIframeByGptAdId doc gpt? adId = some f →
        findAdIframe doc gpt? apn? ev adId adUnitCode = some f) ∧
      (∀ f, findIframeBySource doc ev = none →
        findIframeByGptAdId doc gpt? adId = none →
        findIframeByApnTag doc apn? adUnitCode = some f →
        findAdIframe doc gpt? apn? ev adId adUnitCode = some f) ∧
      (findIframeBySource doc ev = none →
        findIframeByGptAdId doc gpt? adId = none →
        findIframeByApnTag doc apn? adUnitCode = none →
        findAdIframe doc gpt? apn? ev adId adUnitCode = directIdLookup doc adUnitCode) ∧
      (∀ (g : Gpt) (a : String) (s : GptSlot) (el : Elem) (f : Iframe),
        gpt? = some g → g.slots = [s] → a ≠ "" →
        (s.targeting.any (fun kv => kv.2.contains a)) = true →
        getElementById doc s.slotElementId = some el →
        elemFirstVisibleIframe doc el = some f →
        findIframeBySource doc ev = none →
        directIdLookup doc adUnitCode = none →
        findAdIframe doc gpt? apn? ev (some a) adUnitCode = some f) := by
  intro doc gpt? apn? ev adId adUnitCode
  refine ⟨?_, ?_, ?_, ?_, ?_⟩
  · intro f hsrc
    simp [findAdIframe, hsrc, Option.orElse]
  · intro f hsrc hgpt
    simp [findAdIframe, hsrc, hgpt, Option.orElse]
  · intro f hsrc hgpt hapn
    simp [findAdIframe, hsrc, hgpt, hapn, Option.orElse]
  · intro hsrc hgpt hapn
    simp [findAdIframe, hsrc, hgpt, hapn, Option.orElse]
  · intro g a s el f hg hslots ha htgt hel hvis hsrc hdirect
    have hmatch : gptSlotMatchElem doc a s = some el := by
      have hsome : (getElementById doc s.slotElementId).isSome = true := by
        rw [hel]; rfl
      rcases List.any_eq_true.mp htgt with ⟨kv, hkv, hcont⟩
      have hfind : (s.targeting.find? (fun kv =>
          kv.2.contains a && (getElementById doc s.slotElementId).isSome)).isSome = true := by
        apply List.find?_isSome.mpr
        exact ⟨kv, hkv, by simp only [hcont, hsome, Bool.and_self]⟩
      rcases Option.isSome_iff_exists.mp hfind with ⟨kv0, hkv0⟩
      unfold gptSlotMatchElem
      rw [hkv0]
      simp [hel]
    have hgpt : findIframeByGptAdId doc gpt? (some a) = some f := by
      rw [hg]
      simp only [findIframeByGptAdId]
      rw [if_neg ha, hslots]
      simp [gptSlotsLoop, hmatch, hvis]
    simp [findAdIframe, hsrc, hgpt, Option.orElse]

/-- GPT fixture for the C3 witness: one slot targeting `hb_adid = ad-1`,
rendered into element `gpt-slot-1`. -/
def gptSlot1 : GptSlot := ⟨[("hb_adid", ["ad-1"])], "gpt-slot-1"⟩

/-- An iframe whose source-window probe does not match event `evGpt` below. -/
def iframeGpt : Iframe :=
  ⟨2, WindowProbe.ok 99, "", "", "", none, none, some "90px", [⟨"gpt-slot-1", "", ""⟩]⟩

def docGpt : Document := ⟨[iframeGpt], [⟨"gpt-slot-1", [2]⟩]⟩

/-- An event whose source window (7) matches no iframe in `docGpt`. -/
def evGpt : Event := ⟨JSVal.vNull, JSVal.vNull, 7⟩

/-- Witness for C3: with source matching failing (no iframe has window 7)
and no adUnitCode to look up directly, the adId `ad-1` resolves via GPT
targeting to the visible iframe in `gpt-slot-1`. -/
theorem findAdIframe_spec_witness :
    findAdIframe docGpt (some ⟨[gptSlot1]⟩) none evGpt (some "ad-1") none = some iframeGpt :=
  (findAdIframe_spec docGpt (some ⟨[gptSlot1]⟩) none evGpt (some "ad-1") none).2.2.2.2
    ⟨[gptSlot1]⟩ "ad-1" gptSlot1 ⟨"gpt-slot-1", [2]⟩ iframeGpt
    rfl rfl (by decide) (by decide) (by decide) (by decide) (by decide) rfl

end IframeResolver

section MessageHandler

/-- C4: an event whose payload is missing either sentinel field (message not
`"Prebid Creative"` or action not `"programmaticStretch"`), or whose string
payload fails JSON decoding, is handled without any DOM mutation and without
any log line. -/
theorem onMessage_irrelevant_silent :
    ∀ (parse : String → Option ParsedVal) (cfg? : Option Config) (doc : Document)
      (gpt? : Option Gpt) (apn? : Option Apn) (ev : Event),
      (∀ s, effectivePayload ev = JSVal.vStr s → parse s = none →
        onMessage parse cfg? doc gpt? apn? ev = silentOutcome) ∧
      (∀ o, decodePayload parse ev = some (ParsedVal.pObj o) →
        (o.message ≠ some MESSAGE_CREATIVE ∨ o.action ≠ some ACTION_PROGRAMMATIC_STRETCH) →
        onMessage parse cfg? doc gpt? apn? ev = silentOutcome) := by
  intro parse cfg? doc gpt? apn? ev
  constructor
  · intro s hs hp
    have hdec : decodePayload parse ev = none := by
      unfold decodePayload
      rw [hs]
      exact hp
    simp only [onMessage, hdec]
  · intro o hdec hne
    simp only [onMessage, hdec]
    rcases hne with h | h
    · rw [if_neg h]
    · by_cases hm : o.message = some MESSAGE_CREATIVE
      · rw [if_pos hm, if_neg h]
      · rw [if_neg hm]

/-- Event fixture: a string payload that is not valid JSON. -/
def evBadJson : Event := ⟨JSVal.vStr "not json", JSVal.vNull, 7⟩

/-- Event fixture: an object payload with a mismatched action. -/
def evBadAction : Event :=
  ⟨JSVal.vObj ⟨some "Prebid Creative", some "otherAction", some "ad-1", none, none⟩,
   JSVal.vNull, 7⟩

/-- Witness for C4: a failing JSON decode and a mismatched action are both
silently discarded. -/
theorem onMessage_irrelevant_silent_witness :
    onMessage (fun _ => none) none ⟨[], []⟩ none none evBadJson = silentOutcome ∧
    onMessage (fun _ => none) none ⟨[], []⟩ none none evBadAction = silentOutcome :=
  ⟨(onMessage_irrelevant_silent (fun _ => none) none ⟨[], []⟩ none none evBadJson).1
      "not json" rfl rfl,
   (onMessage_irrelevant_silent (fun _ => none) none ⟨[], []⟩ none none evBadAction).2
      ⟨some "Prebid Creative", some "otherAction", some "ad-1", none, none⟩ rfl
      (Or.inr (by decide))⟩

/-- C10: when `event.data` is null or undefined the handler reads the payload
from `event.message`; an event whose effective payload is neither a string
nor of object type (a number, boolean, or undefined) is silently discarded
with no DOM mutation and no log. -/
theorem onMessage_payload_fallback :
    ∀ (parse : String → Option ParsedVal) (cfg? : Option Config) (doc : Document)
      (gpt? : Option Gpt) (apn? : Option Apn) (ev : Event),
      ((ev.data = JSVal.vNull ∨ ev.data = JSVal.vUndef) →
        effectivePayload ev = ev.message) ∧
      (((∃ n, effectivePayload ev = JSVal.vNum n) ∨
        (∃ b, effectivePayload ev = JSVal.vBool b) ∨
        effectivePayload ev = JSVal.vUndef) →
        onMessage parse cfg? doc gpt? apn? ev = silentOutcome) := by
  intro parse cfg? doc gpt? apn? ev
  constructor
  · intro h
    rcases h with h | h <;> simp [effectivePayload, h]
  · intro h
    have hdec : decodePayload parse ev = none := by
      unfold decodePayload
      rcases h with ⟨n, h⟩ | ⟨b, h⟩ | h <;> rw [h]
    simp only [onMessage, hdec]

/-- Witness for C10: an event with `data: null` and a numeric `message`
payload falls back to the message field and is silently discarded. -/
theorem onMessage_payload_fallback_witness :
    effectivePayload ⟨JSVal.vNull, JSVal.vNum 5, 7⟩ = JSVal.vNum 5 ∧
    onMessage (fun _ => none) none ⟨[], []⟩ none none ⟨JSVal.vNull, JSVal.vNum 5, 7⟩ =
      silentOutcome := by
  have h := onMessage_payload_fallback (fun _ => none) none ⟨[], []⟩ none none
    ⟨JSVal.vNull, JSVal.vNum 5, 7⟩
  exact ⟨h.1 (Or.inl rfl), h.2 (Or.inl ⟨5, rfl⟩)⟩

/-- C6: a valid programmaticStretch message received while the configuration
has `enabled: false` produces exactly one warning log and no DOM mutation. -/
theorem onMessage_disabled_warns :
    ∀ (parse : String → Option ParsedVal) (cfg? : Option Config) (doc : Document)
      (gpt? : Option Gpt) (apn? : Option Apn) (ev : Event) (o : MsgObj),
      decodePayload parse ev = some (ParsedVal.pObj o) →
      o.message = some MESSAGE_CREATIVE →
      o.action = some ACTION_PROGRAMMATIC_STRETCH →
      (getConfig cfg?).enabled = some false →
      onMessage parse cfg? doc gpt? apn? ev =
        ⟨[(LogLevel.warn,
            "Received programmaticStretch message but script is globally disabled.")],
         [], none⟩ := by
  intro parse cfg? doc gpt? apn? ev o hdec hm ha hen
  simp only [onMessage, hdec]
  rw [if_pos hm, if_pos ha]
  simp only [handleStretch]
  rw [if_pos hen]

/-- Witness for C6: a valid message against a disabled configuration. -/
theorem onMessage_disabled_warns_witness :
    onMessage (fun _ => none) (some ⟨some false, none, none⟩) ⟨[], []⟩ none none
        ⟨JSVal.vObj msg1, JSVal.vNull, 7⟩ =
      ⟨[(LogLevel.warn,
          "Received programmaticStretch message but script is globally disabled.")],
       [], none⟩ :=
  onMessage_disabled_warns (fun _ => none) (some ⟨some false, none, none⟩) ⟨[], []⟩
    none none ⟨JSVal.vObj msg1, JSVal.vNull, 7⟩ msg1 rfl rfl rfl rfl

end MessageHandler

section CallbackPath

/-- C5: for a valid message, when both a slot-level and a global
`resizeFunction` are configured, only the slot-level callback is invoked,
with the arguments `(adId, resolvedHeight, {iframe, sourceEvent})`, and no
default mutation is performed. -/
theorem onMessage_slot_callback_priority :
    ∀ (parse : String → Option ParsedVal) (cfg? : Option Config) (doc : Document)
      (gpt? : Option Gpt) (apn? : Option Apn) (ev : Event) (o : MsgObj) (f : Iframe)
      (sc : SlotCfg) (cbS cbG : Callback),
      decodePayload parse ev = some (ParsedVal.pObj o) →
      o.message = some MESSAGE_CREATIVE →
      o.action = some ACTION_PROGRAMMATIC_STRETCH →
      (getConfig cfg?).enabled ≠ some false →
      findAdIframe doc gpt? apn? ev (jsStrOrNull o.adId) (jsStrOrNull o.adUnitCode) = some f →
      getSlotConfig cfg? (resolvedAdUnitCode o f) = some sc →
      sc.resizeFunction = some cbS →
      (getConfig cfg?).resizeFunction = some cbG →
      (onMessage parse cfg? doc gpt? apn? ev).calls =
        [⟨CallTarget.slotLevel, jsStrOrNull o.adId,
          resolveHeight (some sc) o (some f), f, ev⟩] ∧
      (onMessage parse cfg? doc gpt? apn? ev).resized = none := by
  intro parse cfg? doc gpt? apn? ev o f sc cbS cbG hdec hm ha hen hfind hslot hcbS hcbG
  simp only [onMessage, hdec]
  rw [if_pos hm, if_pos ha]
  simp only [handleStretch]
  rw [if_neg hen, hfind]
  simp only [hslot, hcbS]
  exact ⟨trivial, trivial⟩

/-- Callback fixtures: one that returns, one that throws. -/
def cbReturns : Callback := ⟨none⟩

def cbThrows : Callback := ⟨some "boom"⟩

/-- Configuration with both a global callback and a slot-level callback for
`slot-1`. -/
def cfgBoth : Config :=
  ⟨some true, some cbThrows, some [("slot-1", ⟨some 300, some cbReturns⟩)]⟩

/-- Document containing `iframe1` inside container `slot-1`. -/
def doc1 : Document := ⟨[iframe1], [⟨"slot-1", [1]⟩]⟩

/-- A valid programmaticStretch event whose source window matches
`iframe1`. -/
def ev1 : Event := ⟨JSVal.vObj msg1, JSVal.vNull, 7⟩

/-- Witness for C5: with both callbacks configured, only the slot-level one
runs, receiving the slot-config height 300. -/
theorem onMessage_slot_callback_priority_witness :
    (onMessage (fun _ => none) (some cfgBoth) doc1 none none ev1).calls =
      [⟨CallTarget.slotLevel, some "ad-1", some 300, iframe1, ev1⟩] ∧
    (onMessage (fun _ => none) (some cfgBoth) doc1 none none ev1).resized = none := by
  have h := onMessage_slot_callback_priority (fun _ => none) (some cfgBoth) doc1
    none none ev1 msg1 iframe1 ⟨some 300, some cbReturns⟩ cbReturns cbThrows
    rfl rfl rfl (by decide) (by decide) (by decide) rfl rfl
  have hh : resolveHeight (some ⟨some 300, some cbReturns⟩) msg1 (some iframe1) =
      some 300 := by decide
  have hid : jsStrOrNull msg1.adId = some "ad-1" := by decide
  rw [hh, hid] at h
  exact h

/-- C2: when the selected custom resize callback (slot-level or global)
throws, the handler emits exactly one error log, the exception does not
propagate (the handler still returns an outcome), no default resize is
performed, and the iframe is left unchanged by the handler. -/
theorem onMessage_callback_throw_caught :
    ∀ (parse : String → Option ParsedVal) (cfg? : Option Config) (doc : Document)
      (gpt? : Option Gpt) (apn? : Option Apn) (ev : Event) (o : MsgObj) (f : Iframe)
      (cb : Callback) (m : String),
      decodePayload parse ev = some (ParsedVal.pObj o) →
      o.message = some MESSAGE_CREATIVE →
      o.action = some ACTION_PROGRAMMATIC_STRETCH →
      (getConfig cfg?).enabled ≠ some false →
      findAdIframe doc gpt? apn? ev (jsStrOrNull o.adId) (jsStrOrNull o.adUnitCode) = some f →
      ((getSlotConfig cfg? (resolvedAdUnitCode o f)).bind SlotCfg.resizeFunction = some cb ∨
        ((getSlotConfig cfg? (resolvedAdUnitCode o f)).bind SlotCfg.resizeFunction = none ∧
          (getConfig cfg?).resizeFunction = some cb)) →
      cb.throwsMsg = some m →
      (onMessage parse cfg? doc gpt? apn? ev).logs =
        [(LogLevel.error, "Custom resizeFunction threw: " ++ m)] ∧
      (onMessage parse cfg? doc gpt? apn? ev).resized = none := by
  intro parse cfg? doc gpt? apn? ev o f cb m hdec hm ha hen hfind hsel hthrow
  simp only [onMessage, hdec]
  rw [if_pos hm, if_pos ha]
  simp only [handleStretch]
  rw [if_neg hen, hfind]
  rcases hsel with hsel | ⟨hnone, hglob⟩
  · cases hsc : getSlotConfig cfg? (resolvedAdUnitCode o f) with
    | none => rw [hsc] at hsel; exact absurd hsel (by simp)
    | some sc =>
        rw [hsc] at hsel
        simp only [Option.bind] at hsel
        simp only [hsc, hsel, hthrow]
        exact ⟨trivial, trivial⟩
  · cases hsc : getSlotConfig cfg? (resolvedAdUnitCode o f) with
    | none =>
        simp only [hsc, hglob, hthrow]
        exact ⟨trivial, trivial⟩
    | some sc =>
        rw [hsc] at hnone
        simp only [Option.bind] at hnone
        simp only [hsc, hnone, hglob, hthrow]
        exact ⟨trivial, trivial⟩

/-- Configuration whose slot-level callback for `slot-1` throws. -/
def cfgSlotThrows : Config :=
  ⟨none, none, some [("slot-1", ⟨none, some cbThrows⟩)]⟩

/-- Witness for C2: a throwing slot-level callback yields exactly one error
log and no resize. -/
theorem onMessage_callback_throw_caught_witness :
    (onMessage (fun _ => none) (some cfgSlotThrows) doc1 none none ev1).logs =
      [(LogLevel.error, "Custom resizeFunction threw: " ++ "boom")] ∧
    (onMessage (fun _ => none) (some cfgSlotThrows) doc1 none none ev1).resized = none :=
  onMessage_callback_throw_caught (fun _ => none) (some cfgSlotThrows) doc1
    none none ev1 msg1 iframe1 cbThrows "boom"
    rfl rfl rfl (by decide) (by decide) (Or.inl (by decide)) rfl

end CallbackPath
